import Mathlib

/-!
Shallow embedding of the traefik-rybbit-feeder Traefik middleware plugin
(Go sources umami.go, umami_worker.go and the response-writer wrapper),
together with theorems settling the specification claims about its
batching worker, retry supervisor, event queue, filter engine and
delivery client.

Durations are modelled in nanoseconds (Go time.Duration units) unless a
definition says otherwise.  IPv4 addresses are modelled as natural
numbers below 2^32; the netip parsing model covers the IPv4 dotted-quad
form used by the ignoreIPs configuration (IPv6 is outside the claims).
-/

namespace TraefikRybbitFeeder

/-! ## Model of net/netip for IPv4: ParseAddr, ParsePrefix, Prefix.Contains -/

/-- Split a character list on a separator character; mirrors Go
strings.Split for one-character separators. -/
def splitOnChar (sep : Char) : List Char → List (List Char)
  | [] => [[]]
  | c :: cs =>
    if c = sep then [] :: splitOnChar sep cs
    else
      match splitOnChar sep cs with
      | [] => [[c]]
      | g :: gs => (c :: g) :: gs

/-- The characters of a string up to (excluding) the first occurrence of
a separator character. -/
def takeUntilChar (sep : Char) : List Char → List Char
  | [] => []
  | c :: cs => if c = sep then [] else c :: takeUntilChar sep cs

/-- Digits of a character list as numeric values, or none if some
character is not a decimal digit. -/
def digitVals (cs : List Char) : Option (List Nat) :=
  cs.mapM (fun c => if c.isDigit then some (c.toNat - 48) else none)

/-- Parse one decimal field of an IPv4 dotted quad, per Go net/netip:
1 to 3 digits, value at most 255, no leading zero unless the field is
exactly "0". -/
def parseV4Field (cs : List Char) : Option Nat :=
  match digitVals cs with
  | none => none
  | some ds =>
    if ds.length = 0 ∨ 3 < ds.length then none
    else if 1 < ds.length ∧ ds.headI = 0 then none
    else
      let v := ds.foldl (fun acc d => acc * 10 + d) 0
      if v ≤ 255 then some v else none

/-- Model of netip.ParseAddr restricted to IPv4 dotted-quad strings: the
address as a natural number below 2^32, or none when unparsable. -/
def parseAddr (s : String) : Option Nat :=
  match (splitOnChar '.' s.data).mapM parseV4Field with
  | some [a, b, c, d] => some (((a * 256 + b) * 256 + c) * 256 + d)
  | _ => none

/-- A parsed CIDR network: the (unmasked) address and the prefix length
in bits, as produced by netip.ParsePrefix on an IPv4 CIDR string. -/
structure Cidr where
  addr : Nat
  bits : Nat
deriving DecidableEq, Repr

/-- Model of netip.ParsePrefix for IPv4: "addr/bits" with bits a plain
decimal between 0 and 32 (no sign, no leading zeros). -/
def parseCidr (s : String) : Option Cidr :=
  match splitOnChar '/' s.data with
  | [a, b] =>
    match parseAddr (String.mk a), digitVals b with
    | some ip, some ds =>
      if ds.length = 0 ∨ (1 < ds.length ∧ ds.headI = 0) then none
      else
        let v := ds.foldl (fun acc d => acc * 10 + d) 0
        if v ≤ 32 then some ⟨ip, v⟩ else none
    | _, _ => none
  | _ => none

/-- Model of netip Prefix.Contains for IPv4: the top `bits` bits of the
candidate address equal those of the network address. -/
def Cidr.containsIp (p : Cidr) (ip : Nat) : Bool :=
  ip / 2 ^ (32 - p.bits) = p.addr / 2 ^ (32 - p.bits)

/-! ## Configuration and plugin state (umami.go) -/

/-- The plugin configuration fields the claims touch (Config struct in
umami.go).  BatchMaxWait is in nanoseconds like Go time.Duration. -/
structure Config where
  disabled : Bool
  debug : Bool
  queueSize : Nat
  batchSize : Nat
  batchMaxWait : Nat
  host : String
  apiKey : String
  websites : List (String × String)
  trackErrors : Bool
  ignoreIPs : List String
  headerIp : String
deriving Repr

/-- CreateConfig in umami.go: the default configuration. -/
def CreateConfig : Config :=
  { disabled := false
    debug := false
    queueSize := 1000
    batchSize := 20
    batchMaxWait := 5 * 1000000000
    host := ""
    apiKey := ""
    websites := []
    trackErrors := false
    ignoreIPs := []
    headerIp := "X-Real-Ip" }

/-- The UmamiFeeder fields the claims touch, as constructed by New. -/
structure UmamiFeeder where
  isDebug : Bool
  isDisabled : Bool
  queueCap : Nat
  batchSize : Nat
  batchMaxWait : Nat
  host : String
  apiKey : String
  websites : List (String × String)
  trackErrors : Bool
  ignoreCidrs : List Cidr
  headerIp : String
deriving Repr

/-- New in umami.go: constructs the UmamiFeeder from the configuration.
The queue is created with capacity config.QueueSize; batchSize is taken
from the configuration; batchMaxWait is the literal 1 * time.Second from
the source, written in nanoseconds. -/
def New (config : Config) : UmamiFeeder :=
  { isDebug := config.debug
    isDisabled := config.disabled
    queueCap := config.queueSize
    batchSize := config.batchSize
    batchMaxWait := 1 * 1000000000
    host := config.host
    apiKey := config.apiKey
    websites := config.websites
    trackErrors := config.trackErrors
    ignoreCidrs := []
    headerIp := config.headerIp }

/-! ## Connection and retry supervisor (umami.go) -/

/-- The inputs connect inspects: the feeder fields it validates and the
outcome of the GET {host}/health probe. -/
structure ConnectInput where
  host : String
  apiKey : String
  websites : List (String × String)
  healthOk : Bool
deriving Repr

/-- connect in umami.go: validates host, apiKey and websites, then
probes {host}/health; returns the error message, or none on success. -/
def connect (c : ConnectInput) : Option String :=
  if c.host = "" then some "`host` is not set"
  else if c.apiKey = "" then some "`apiKey` should be set"
  else if c.websites.length = 0 then some "`websites` should not be empty"
  else if !c.healthOk then some "Failed to get health for rybbit"
  else none

/-- verifyConfig in umami.go, restricted to its ignoreIPs loop (the
ignoreURLs regular-expression loop has the same success and failure
structure and no claim touches it): each entry is parsed with
netip.ParsePrefix, retrying with a /32 suffix, and any failure makes the
whole validation fail.  Returns the accumulated prefixes, or none. -/
def verifyConfigIPs (ignoreIPs : List String) : Option (List Cidr) :=
  ignoreIPs.mapM (fun s =>
    match parseCidr s with
    | some network => some network
    | none => parseCidr (s ++ "/32"))

/-- Outcome of one iteration of the retryConnection loop after the wait
elapses (or the context is cancelled while waiting). -/
inductive RetryStep
  /-- connect returned an error: it is logged and the for loop continues,
  so the attempt is retried after the next backoff delay. -/
  | retry
  /-- connect succeeded but verifyConfig failed: the plugin is disabled
  and the supervisor returns, with no further retries. -/
  | fatalDisabled
  /-- connect and verifyConfig succeeded: the plugin is enabled, the
  worker is started and the supervisor returns. -/
  | ready
  /-- the context was cancelled while waiting: the supervisor returns
  without enabling tracking. -/
  | stopped
deriving DecidableEq, Repr

/-- One iteration of retryConnection in umami.go: on ctx.Done it stops;
otherwise it runs connect, retrying its errors, and on success runs
verifyConfig, whose failure is fatal. -/
def retryConnectionStep (c : ConnectInput) (ignoreIPs : List String)
    (ctxCancelled : Bool) : RetryStep :=
  if ctxCancelled then .stopped
  else
    match connect c with
    | some _ => .retry
    | none =>
      match verifyConfigIPs ignoreIPs with
      | some _ => .ready
      | none => .fatalDisabled

/-- The currentDelay computation at the top of the retryConnection loop,
in seconds: 0 for attempt 0, 15 * 2 ^ n seconds for attempts 1 to 7, and
the one-hour maxRetryInterval otherwise. -/
def retryDelay (retryAttempt : Nat) : Nat :=
  if retryAttempt = 0 then 0
  else if retryAttempt < 8 then 15 * 2 ^ retryAttempt
  else 3600

/-! ## Events and wire format (umami_worker.go) -/

/-- RybbitEvent in umami_worker.go: one visit event. -/
structure RybbitEvent where
  apiKey : String
  siteID : String
  type : String
  pathname : String
  hostname : String
  ip : String
  userAgent : String
  language : String
  eventName : String
  referrer : String
  properties : String
deriving DecidableEq, Repr

/-- SendBody in umami_worker.go: the payload/type envelope the worker
wraps each queued event in when batching it. -/
structure SendBody where
  payload : RybbitEvent
  type : String
deriving DecidableEq, Repr

/-- JSON values, as far as the wire format of the claims needs them. -/
inductive Json
  | str (s : String)
  | obj (fields : List (String × Json))

/-- encoding/json marshalling of RybbitEvent following its struct tags:
api_key, site_id, type and pathname are always present; the remaining
fields carry omitempty and are dropped when empty. -/
def RybbitEvent.toJson (e : RybbitEvent) : Json :=
  .obj ([("api_key", .str e.apiKey), ("site_id", .str e.siteID),
         ("type", .str e.type), ("pathname", .str e.pathname)]
    ++ (if e.hostname = "" then [] else [("hostname", .str e.hostname)])
    ++ (if e.ip = "" then [] else [("ip_address", .str e.ip)])
    ++ (if e.userAgent = "" then [] else [("user_agent", .str e.userAgent)])
    ++ (if e.language = "" then [] else [("language", .str e.language)])
    ++ (if e.eventName = "" then [] else [("event_name", .str e.eventName)])
    ++ (if e.referrer = "" then [] else [("referrer", .str e.referrer)])
    ++ (if e.properties = "" then [] else [("properties", .str e.properties)]))

/-- encoding/json marshalling of SendBody following its struct tags:
the payload/type envelope around one event. -/
def SendBody.toJson (b : SendBody) : Json :=
  .obj [("payload", b.payload.toJson), ("type", .str b.type)]

/-- One outbound HTTP request of the delivery client. -/
structure OutboundRequest where
  url : String
  body : Json

/-- reportEventsToUmami in umami_worker.go, as the list of outbound
requests it issues for a batch: for each batched SendBody value it calls
sendRequest(ctx, h.host + "/api/track", value.Payload, nil), passing
value.Payload, the bare event, as the request body.  sendRequest itself
is not under src/.  Modelled from the spec: sendRequest performs an HTTP
POST of the JSON-marshalled body argument to the given URL. -/
def reportEventsToUmami (host : String) (events : List SendBody) :
    List OutboundRequest :=
  events.map (fun value => ⟨host ++ "/api/track", value.payload.toJson⟩)

/-! ## Event submission and the bounded queue (umami_worker.go) -/

/-- The request metadata read by submitToFeed and the filter steps. -/
structure TrackRequest where
  host : String
  path : String
  headerIpValue : String
  remoteAddr : String
  userAgent : String
  referer : String
  acceptLanguage : String
deriving DecidableEq, Repr

/-- Modelled from the spec: parseDomainFromHost is not under src/.  The
spec keys the SiteMap by the request hostname, so the helper extracts
the hostname from a Host value of the form host[:port]. -/
def parseDomainFromHost (host : String) : String :=
  String.mk (takeUntilChar ':' host.data)

/-- Modelled from the spec: extractRemoteIP is not under src/.  The spec
fills the VisitEvent client IP from the connection remote address, which
carries a host:port form, so the helper strips the port. -/
def extractRemoteIP (remoteAddr : String) : String :=
  String.mk (takeUntilChar ':' remoteAddr.data)

/-- Modelled from the spec: parseAcceptLanguage is not under src/.  The
spec stores the browser language, so the helper takes the first tag of
the Accept-Language header. -/
def parseAcceptLanguage (acceptLanguage : String) : String :=
  String.mk (takeUntilChar ',' acceptLanguage.data)

/-- Go map indexing websites[hostname] on the hostname-to-site-id map,
as lookup in an association list. -/
def lookupWebsite (websites : List (String × String)) (hostname : String) :
    Option String :=
  (websites.find? (fun p => p.1 == hostname)).map (fun p => p.2)

/-- The observable outcome of one producer-side call: the queue after
the call and the h.error messages emitted during it. -/
structure SubmitResult where
  queue : List RybbitEvent
  errors : List String
deriving DecidableEq, Repr

/-- submitToFeed in umami_worker.go: looks the hostname up in the
websites map (unknown hostname logs an error and enqueues nothing),
builds the RybbitEvent, and offers it to the bounded queue with a
non-blocking select whose default branch drops the event and logs
"queue full".  The buffered channel of capacity h.queueCap is modelled
as a list holding at most queueCap events. -/
def submitToFeed (h : UmamiFeeder) (req : TrackRequest)
    (queue : List RybbitEvent) : SubmitResult :=
  let hostname := parseDomainFromHost req.host
  match lookupWebsite h.websites hostname with
  | none => ⟨queue, ["tracking skipped, site-id is unknown: " ++ hostname]⟩
  | some websiteId =>
    let rEvent : RybbitEvent :=
      { apiKey := h.apiKey
        siteID := websiteId
        type := "pageview"
        pathname := req.path
        hostname := hostname
        ip := extractRemoteIP req.remoteAddr
        userAgent := req.userAgent
        language := parseAcceptLanguage req.acceptLanguage
        eventName := ""
        referrer := req.referer
        properties := "" }
    if queue.length < h.queueCap then ⟨queue ++ [rEvent], []⟩
    else ⟨queue, ["failed to submit event: queue full"]⟩

/-! ## Filter engine pieces the claims touch (umami.go) -/

/-- shouldTrackStatus in umami.go: status codes of 400 and above are
reported only when trackErrors is set. -/
def shouldTrackStatus (trackErrors : Bool) (statusCode : Int) : Bool :=
  if statusCode ≥ 400 then trackErrors else true

/-- The requestIp resolution at the top of shouldTrack: the configured
header value, falling back to req.RemoteAddr when the header is empty. -/
def resolveRequestIp (headerValue remoteAddr : String) : String :=
  if headerValue = "" then remoteAddr else headerValue

/-- The IP block of shouldTrack in umami.go, as the predicate "this step
excludes the request": when ignore prefixes are configured, an
unparsable resolved address returns false from shouldTrack (excluded),
and otherwise the request is excluded exactly when some configured
prefix contains the address.  With no configured prefixes the block is
skipped. -/
def ipStepExcludes (ignoreCidrs : List Cidr)
    (headerValue remoteAddr : String) : Bool :=
  if 0 < ignoreCidrs.length then
    match parseAddr (resolveRequestIp headerValue remoteAddr) with
    | none => true
    | some ip => ignoreCidrs.any (fun p => p.containsIp ip)
  else false

/-! ## Response writer wrapper (response writer source file) -/

/-- ResponseWriter.WriteHeader in the wrapper source: evaluates the
status filter and, when it accepts, calls submitToFeed, before
delegating to the wrapped writer.  There is no guard remembering that
headers were already written. -/
def writeHeader (h : UmamiFeeder) (req : TrackRequest)
    (queue : List RybbitEvent) (code : Int) : SubmitResult :=
  if shouldTrackStatus h.trackErrors code then submitToFeed h req queue
  else ⟨queue, []⟩

/-- A sequence of WriteHeader calls on the same wrapped writer, threading
the queue through and collecting the emitted errors. -/
def writeHeaderSeq (h : UmamiFeeder) (req : TrackRequest)
    (queue : List RybbitEvent) : List Int → SubmitResult
  | [] => ⟨queue, []⟩
  | code :: codes =>
    let r := writeHeader h req queue code
    let rest := writeHeaderSeq h req r.queue codes
    ⟨rest.queue, r.errors ++ rest.errors⟩

/-! ## Batching worker (umami_worker.go) -/

/-- The three branches of the worker select: context cancellation, an
event arriving on the queue, and the wait timer firing. -/
inductive WorkerTrigger
  | ctxDone
  | queueEvent (event : RybbitEvent)
  | timerFired
deriving DecidableEq, Repr

/-- What one iteration of the umamiEventFeeder loop did: the batch it
continues with, the batches handed to reportEventsToUmami, whether
timeout.Reset was called, and whether the loop returned. -/
structure WorkerStepResult where
  batch : List SendBody
  flushed : List (List SendBody)
  timerReset : Bool
  terminated : Bool
deriving DecidableEq, Repr

/-- One iteration of the select loop of umamiEventFeeder in
umami_worker.go.  ctx.Done flushes a non-empty batch and returns; an
arriving event is appended wrapped in SendBody and the batch is flushed
and reset, with the timer restarted, once its length reaches
h.batchSize; the timer firing flushes a non-empty batch and always
restarts the timer. -/
def umamiEventFeederStep (batchSize : Nat) (batch : List SendBody) :
    WorkerTrigger → WorkerStepResult
  | .ctxDone =>
    { batch := batch
      flushed := if 0 < batch.length then [batch] else []
      timerReset := false
      terminated := true }
  | .queueEvent event =>
    let batch1 := batch ++ [⟨event, "event"⟩]
    if batchSize ≤ batch1.length then
      { batch := [], flushed := [batch1], timerReset := true,
        terminated := false }
    else
      { batch := batch1, flushed := [], timerReset := false,
        terminated := false }
  | .timerFired =>
    if 0 < batch.length then
      { batch := [], flushed := [batch], timerReset := true,
        terminated := false }
    else
      { batch := batch, flushed := [], timerReset := true,
        terminated := false }

/-! ## Worker supervision (umami_worker.go) -/

/-- How one run of umamiEventFeeder ends: either its loop sees ctx.Done
and returns nil, or a panic unwinds the loop into the deferred recover. -/
inductive FeederExit
  | canceled
  | panicked (message : String)
deriving DecidableEq, Repr

/-- The value of the named return err when umamiEventFeeder exits.  The
only return statement is the "return nil" on cancellation; on a panic
the deferred recover logs the value but never assigns err, so the named
return keeps its zero value nil. -/
def umamiEventFeederErr : FeederExit → Option String
  | .canceled => none
  | .panicked _ => none

/-- Whether the run logged the panic through h.error in its deferred
recover handler. -/
def feederPanicLogged : FeederExit → Bool
  | .canceled => false
  | .panicked _ => true

/-- startWorker in umami_worker.go, run against the successive exits of
umamiEventFeeder: after each run it restarts the worker when err is
non-nil and returns when err is nil.  The result counts the restarts
performed. -/
def startWorkerRestartCount : List FeederExit → Nat
  | [] => 0
  | e :: rest =>
    if (umamiEventFeederErr e).isSome then 1 + startWorkerRestartCount rest
    else 0

/-! ## Theorems settling the claims -/

/-- C1: the claim states that a panic during one flush cycle is caught,
logged, and the outer supervising loop (startWorker) restarts the worker
loop, the worker terminating only on cancellation.  The code catches and
logs the panic, but the deferred recover never assigns the named return
err, so startWorker observes err = nil and returns: a panicked run is
never restarted, contradicting the claim. -/
theorem panicked_worker_run_is_not_restarted :
    feederPanicLogged (FeederExit.panicked "runtime fault") = true ∧
    umamiEventFeederErr (FeederExit.panicked "runtime fault") = none ∧
    startWorkerRestartCount [FeederExit.panicked "runtime fault"] = 0 := by
  decide

/-- C2 counterexample: a startup configuration missing only the host is
not fatal: the retry supervisor step yields a retry with backoff, not
the permanently disabled outcome the claim asserts. -/
theorem missing_host_is_retried_not_fatal :
    retryConnectionStep ⟨"", "key", [("example.com", "1")], true⟩ [] false =
      RetryStep.retry ∧
    RetryStep.retry ≠ RetryStep.fatalDisabled := by
  decide

/-- C2 amended: a missing host, API key or websites map makes connect
fail, and the supervisor retries such failures with backoff exactly like
connectivity errors; only validation failures after a successful probe,
such as an invalid ignoreIPs entry, are fatal and permanently disable
tracking. -/
theorem missing_config_retried_validation_fatal
    (c : ConnectInput) (ignoreIPs : List String) :
    ((c.host = "" ∨ c.apiKey = "" ∨ c.websites.length = 0) →
      retryConnectionStep c ignoreIPs false = RetryStep.retry) ∧
    (connect c = none → verifyConfigIPs ignoreIPs = none →
      retryConnectionStep c ignoreIPs false = RetryStep.fatalDisabled) := by
  constructor
  · intro h
    have hc : ∃ m, connect c = some m := by
      unfold connect
      rcases h with h | h | h <;> simp [h] <;> split_ifs <;> exact ⟨_, rfl⟩
    rcases hc with ⟨m, hm⟩
    unfold retryConnectionStep
    simp [hm]
  · intro h1 h2
    unfold retryConnectionStep
    simp [h1, h2]

/-- C2 witness: the amended theorem at a configuration missing the API
key, and at one whose probe succeeds but whose ignoreIPs entry is not a
valid address or CIDR. -/
theorem missing_config_retried_validation_fatal_witness :
    retryConnectionStep ⟨"https://x", "", [("a", "1")], true⟩ [] false =
      RetryStep.retry ∧
    retryConnectionStep ⟨"https://x", "k", [("a", "1")], true⟩ ["bogus"] false =
      RetryStep.fatalDisabled :=
  ⟨(missing_config_retried_validation_fatal ⟨"https://x", "", [("a", "1")], true⟩ []).1
      (Or.inr (Or.inl rfl)),
   (missing_config_retried_validation_fatal ⟨"https://x", "k", [("a", "1")], true⟩
      ["bogus"]).2 (by decide) (by decide)⟩

/-- C3 counterexample: with the default configuration, whose
BatchMaxWait is 5 seconds, New constructs a feeder whose batchMaxWait is
1 second, not the configured value. -/
theorem new_batchMaxWait_differs_from_config :
    CreateConfig.batchMaxWait = 5000000000 ∧
    (New CreateConfig).batchMaxWait = 1000000000 ∧
    (New CreateConfig).batchMaxWait ≠ CreateConfig.batchMaxWait := by
  decide

/-- C3 amended: for every configuration, the wait-timer duration
constructed in New and used by the batching worker is the literal one
second, regardless of the configured BatchMaxWait value. -/
theorem new_batchMaxWait_is_one_second (config : Config) :
    (New config).batchMaxWait = 1000000000 :=
  rfl

/-- C8: the retry delay satisfies delay(0) = 0, delay(n) = 15s * 2 ^ n
for 1 ≤ n < 8 and is capped at one hour for n ≥ 8, and the delays for
attempts 0 through 9 are 0, 30, 60, 120, 240, 480, 960, 1920, 3600 and
3600 seconds. -/
theorem retryDelay_spec :
    retryDelay 0 = 0 ∧
    (∀ n, 1 ≤ n → n < 8 → retryDelay n = 15 * 2 ^ n) ∧
    (∀ n, 8 ≤ n → retryDelay n = 3600) ∧
    (List.range 10).map retryDelay =
      [0, 30, 60, 120, 240, 480, 960, 1920, 3600, 3600] := by
  refine ⟨rfl, ?_, ?_, by decide⟩
  · intro n h1 h2
    unfold retryDelay
    rw [if_neg (by omega), if_pos h2]
  · intro n h
    unfold retryDelay
    rw [if_neg (by omega), if_neg (by omega)]

/-- C8 witness: the delay theorem instantiated at attempts 5 and 9. -/
theorem retryDelay_spec_witness :
    retryDelay 5 = 15 * 2 ^ 5 ∧ retryDelay 9 = 3600 :=
  ⟨retryDelay_spec.2.1 5 (by norm_num) (by norm_num),
   retryDelay_spec.2.2.1 9 (by norm_num)⟩

/-- C4 counterexample: at a concrete one-event batch, the request the
delivery client issues is not the claimed payload/type envelope: its
body differs from the SendBody envelope serialization of the event. -/
theorem track_request_body_is_not_envelope_at_sample :
    reportEventsToUmami "https://x"
        [⟨⟨"k", "1", "pageview", "/p", "", "", "", "", "", "", ""⟩, "event"⟩] ≠
      [⟨"https://x" ++ "/api/track",
        SendBody.toJson
          ⟨⟨"k", "1", "pageview", "/p", "", "", "", "", "", "", ""⟩, "event"⟩⟩] := by
  simp [reportEventsToUmami, SendBody.toJson, RybbitEvent.toJson,
    OutboundRequest.mk.injEq]

/-- C4 amended: every event of a batch produces an HTTP POST to
{host}/api/track, but the JSON body is the bare RybbitEvent
serialization: the batched SendBody value contributes only its payload,
and the body never equals the payload/type envelope. -/
theorem reportEvents_posts_bare_event_body
    (host : String) (events : List SendBody) (i : Nat) :
    (reportEventsToUmami host events).length = events.length ∧
    (reportEventsToUmami host events).get? i =
      (events.get? i).map
        (fun v => ⟨host ++ "/api/track", v.payload.toJson⟩) ∧
    (∀ v : SendBody, v.payload.toJson ≠ v.toJson) := by
  refine ⟨by simp [reportEventsToUmami], by simp [reportEventsToUmami], ?_⟩
  intro v h
  simp [RybbitEvent.toJson, SendBody.toJson] at h

/-- C4 witness: the amended theorem instantiated at a concrete event:
its bare serialization differs from its envelope serialization. -/
theorem reportEvents_posts_bare_event_body_witness :
    RybbitEvent.toJson ⟨"k", "1", "pageview", "/p", "", "", "", "", "", "", ""⟩ ≠
      SendBody.toJson
        ⟨⟨"k", "1", "pageview", "/p", "", "", "", "", "", "", ""⟩, "event"⟩ :=
  (reportEvents_posts_bare_event_body "https://x" [] 0).2.2
    ⟨⟨"k", "1", "pageview", "/p", "", "", "", "", "", "", ""⟩, "event"⟩

/-- C6: one iteration of the batching worker loop: appending an event
that brings the batch to the configured batch size flushes the extended
batch immediately, resets the batch and restarts the timer; the timer
firing flushes the batch exactly when it is non-empty and always
restarts the timer; and on cancellation any non-empty partial batch is
flushed and the worker terminates. -/
theorem worker_step_spec
    (batchSize : Nat) (batch : List SendBody) (event : RybbitEvent) :
    (batch.length + 1 = batchSize →
      umamiEventFeederStep batchSize batch (WorkerTrigger.queueEvent event) =
        ⟨[], [batch ++ [⟨event, "event"⟩]], true, false⟩) ∧
    ((umamiEventFeederStep batchSize batch WorkerTrigger.timerFired).flushed ≠ []
      ↔ batch ≠ []) ∧
    (batch ≠ [] →
      umamiEventFeederStep batchSize batch WorkerTrigger.timerFired =
        ⟨[], [batch], true, false⟩) ∧
    (umamiEventFeederStep batchSize batch WorkerTrigger.timerFired).timerReset
      = true ∧
    (umamiEventFeederStep batchSize batch WorkerTrigger.ctxDone).terminated
      = true ∧
    (batch ≠ [] →
      (umamiEventFeederStep batchSize batch WorkerTrigger.ctxDone).flushed =
        [batch]) := by
  refine ⟨?_, ?_, ?_, ?_, ?_, ?_⟩
  · intro h
    simp only [umamiEventFeederStep]
    rw [if_pos (by simp; omega)]
  · simp only [umamiEventFeederStep]
    split_ifs with h
    · simp [List.length_pos] at h
      simp [h]
    · simp only [List.length_pos, not_lt, Nat.le_zero, List.length_eq_zero] at h
      simp [h]
  · intro h
    simp only [umamiEventFeederStep]
    rw [if_pos (by simp [List.length_pos, h])]
  · simp only [umamiEventFeederStep]
    split_ifs <;> rfl
  · simp only [umamiEventFeederStep]
  · intro h
    simp only [umamiEventFeederStep]
    rw [if_pos (by simp [List.length_pos, h])]

/-- C6 witness: the worker step theorem at batch size 2, once for the
size trigger and once for cancellation with a partial batch. -/
theorem worker_step_spec_witness :
    umamiEventFeederStep 2
        [⟨⟨"k", "1", "pageview", "/a", "", "", "", "", "", "", ""⟩, "event"⟩]
        (WorkerTrigger.queueEvent
          ⟨"k", "1", "pageview", "/b", "", "", "", "", "", "", ""⟩) =
      ⟨[], [[⟨⟨"k", "1", "pageview", "/a", "", "", "", "", "", "", ""⟩, "event"⟩,
             ⟨⟨"k", "1", "pageview", "/b", "", "", "", "", "", "", ""⟩, "event"⟩]],
        true, false⟩ ∧
    (umamiEventFeederStep 2
        [⟨⟨"k", "1", "pageview", "/a", "", "", "", "", "", "", ""⟩, "event"⟩]
        WorkerTrigger.ctxDone).flushed =
      [[⟨⟨"k", "1", "pageview", "/a", "", "", "", "", "", "", ""⟩, "event"⟩]] :=
  ⟨(worker_step_spec 2
      [⟨⟨"k", "1", "pageview", "/a", "", "", "", "", "", "", ""⟩, "event"⟩]
      ⟨"k", "1", "pageview", "/b", "", "", "", "", "", "", ""⟩).1 (by decide),
   (worker_step_spec 2
      [⟨⟨"k", "1", "pageview", "/a", "", "", "", "", "", "", ""⟩, "event"⟩]
      ⟨"k", "1", "pageview", "/b", "", "", "", "", "", "", ""⟩).2.2.2.2.2
      (by decide)⟩

/-- C7: the enqueue in submitToFeed is the non-blocking select on the
bounded queue: a queue within capacity stays within capacity; an enqueue
attempted on a full queue leaves the queue unchanged (the new event is
dropped) and, when the site is known so the attempt happens at all, the
queue-full error is surfaced; the call is a total function of its
inputs, so the caller returns without retrying. -/
theorem enqueue_bounded_and_drops (h : UmamiFeeder) (req : TrackRequest)
    (queue : List RybbitEvent) :
    (queue.length ≤ h.queueCap →
      (submitToFeed h req queue).queue.length ≤ h.queueCap) ∧
    (h.queueCap ≤ queue.length → (submitToFeed h req queue).queue = queue) ∧
    (h.queueCap ≤ queue.length →
      ∀ id, lookupWebsite h.websites (parseDomainFromHost req.host) = some id →
        (submitToFeed h req queue).errors =
          ["failed to submit event: queue full"]) := by
  unfold submitToFeed
  cases hl : lookupWebsite h.websites (parseDomainFromHost req.host) with
  | none => simp [hl]
  | some id =>
    simp only [hl]
    split_ifs with hlen
    · refine ⟨fun _ => by simp; omega, fun hfull => absurd hfull (by omega),
        fun hfull => absurd hfull (by omega)⟩
    · simp

/-- C7 witness: the bound theorem at a feeder whose queue capacity is 1
and a queue already holding one event. -/
theorem enqueue_bounded_and_drops_witness :
    (submitToFeed
        { isDebug := false, isDisabled := false, queueCap := 1, batchSize := 20,
          batchMaxWait := 1000000000, host := "h", apiKey := "k",
          websites := [("a.com", "5")], trackErrors := false, ignoreCidrs := [],
          headerIp := "X-Real-Ip" }
        ⟨"a.com", "/p", "", "9.9.9.9:1", "ua", "r", "en"⟩
        [⟨"k", "5", "pageview", "/q", "a.com", "9.9.9.9", "ua", "en", "", "r", ""⟩]).queue
      = [⟨"k", "5", "pageview", "/q", "a.com", "9.9.9.9", "ua", "en", "", "r", ""⟩] ∧
    (submitToFeed
        { isDebug := false, isDisabled := false, queueCap := 1, batchSize := 20,
          batchMaxWait := 1000000000, host := "h", apiKey := "k",
          websites := [("a.com", "5")], trackErrors := false, ignoreCidrs := [],
          headerIp := "X-Real-Ip" }
        ⟨"a.com", "/p", "", "9.9.9.9:1", "ua", "r", "en"⟩
        [⟨"k", "5", "pageview", "/q", "a.com", "9.9.9.9", "ua", "en", "", "r", ""⟩]).errors
      = ["failed to submit event: queue full"] :=
  ⟨(enqueue_bounded_and_drops
      { isDebug := false, isDisabled := false, queueCap := 1, batchSize := 20,
        batchMaxWait := 1000000000, host := "h", apiKey := "k",
        websites := [("a.com", "5")], trackErrors := false, ignoreCidrs := [],
        headerIp := "X-Real-Ip" }
      ⟨"a.com", "/p", "", "9.9.9.9:1", "ua", "r", "en"⟩
      [⟨"k", "5", "pageview", "/q", "a.com", "9.9.9.9", "ua", "en", "", "r", ""⟩]).2.1
      (by decide),
   (enqueue_bounded_and_drops
      { isDebug := false, isDisabled := false, queueCap := 1, batchSize := 20,
        batchMaxWait := 1000000000, host := "h", apiKey := "k",
        websites := [("a.com", "5")], trackErrors := false, ignoreCidrs := [],
        headerIp := "X-Real-Ip" }
      ⟨"a.com", "/p", "", "9.9.9.9:1", "ua", "r", "en"⟩
      [⟨"k", "5", "pageview", "/q", "a.com", "9.9.9.9", "ua", "en", "", "r", ""⟩]).2.2
      (by decide) "5" (by decide)⟩

/-- C9: the IP step of shouldTrack: the client IP is the configured
header value, falling back to the remote address when the header is
empty; with ignore prefixes configured, a parsable resolved address is
excluded exactly when some configured prefix contains it, and an
unparsable resolved value excludes the request (fail closed), the step
being a total boolean function that never fails the outer pipeline. -/
theorem ip_step_spec (ignoreCidrs : List Cidr)
    (headerValue remoteAddr : String) (hne : ignoreCidrs ≠ []) :
    resolveRequestIp "" remoteAddr = remoteAddr ∧
    (headerValue ≠ "" →
      resolveRequestIp headerValue remoteAddr = headerValue) ∧
    (∀ ip, parseAddr (resolveRequestIp headerValue remoteAddr) = some ip →
      (ipStepExcludes ignoreCidrs headerValue remoteAddr = true ↔
        ∃ p ∈ ignoreCidrs, p.containsIp ip = true)) ∧
    (parseAddr (resolveRequestIp headerValue remoteAddr) = none →
      ipStepExcludes ignoreCidrs headerValue remoteAddr = true) := by
  have hpos : 0 < ignoreCidrs.length := List.length_pos.mpr hne
  refine ⟨rfl, ?_, ?_, ?_⟩
  · intro hh
    simp [resolveRequestIp, hh]
  · intro ip hip
    simp [ipStepExcludes, hpos, hip, List.any_eq_true]
  · intro hip
    simp [ipStepExcludes, hpos, hip]

/-- C9 witness: the IP step theorem at one configured prefix 10.0.0.0/8,
once with a header address inside the prefix and once with an empty
header falling back to a remote address that carries a port and is
therefore unparsable. -/
theorem ip_step_spec_witness :
    ipStepExcludes [⟨167772160, 8⟩] "10.1.2.3" "x" = true ∧
    ipStepExcludes [⟨167772160, 8⟩] "" "10.0.0.1:443" = true :=
  ⟨((ip_step_spec [⟨167772160, 8⟩] "10.1.2.3" "x" (by decide)).2.2.1 167838211
      (by decide)).mpr ⟨⟨167772160, 8⟩, by decide, by decide⟩,
   (ip_step_spec [⟨167772160, 8⟩] "" "10.0.0.1:443" (by decide)).2.2.2
      (by decide)⟩

/-- C10 counterexample: with a websites map binding a hostname to the
empty site id, submitToFeed enqueues an event whose site identifier is
empty, so an event with an empty site identifier can be enqueued. -/
theorem empty_site_id_event_enqueued :
    ((submitToFeed
        { isDebug := false, isDisabled := false, queueCap := 10, batchSize := 20,
          batchMaxWait := 1000000000, host := "h", apiKey := "k",
          websites := [("a.com", "")], trackErrors := false, ignoreCidrs := [],
          headerIp := "X-Real-Ip" }
        ⟨"a.com", "/p", "", "1.2.3.4:80", "ua", "r", "en-US,en"⟩
        []).queue).map (fun e => e.siteID) = [""] := by
  decide

/-- C10 amended: submitToFeed looks the request hostname up in the
websites map itself: an unknown hostname logs an error and enqueues
nothing, and every newly enqueued event carries exactly the site
identifier the map stores for that hostname — which is outside the map
range for no event, but is empty precisely when the map itself binds the
hostname to an empty id. -/
theorem submit_site_id_from_map (h : UmamiFeeder) (req : TrackRequest)
    (queue : List RybbitEvent) :
    (lookupWebsite h.websites (parseDomainFromHost req.host) = none →
      (submitToFeed h req queue).queue = queue ∧
      (submitToFeed h req queue).errors ≠ []) ∧
    (∀ e, e ∈ (submitToFeed h req queue).queue → e ∉ queue →
      lookupWebsite h.websites (parseDomainFromHost req.host) =
        some e.siteID) := by
  constructor
  · intro hl
    simp [submitToFeed, hl]
  · intro e he hnew
    unfold submitToFeed at he
    cases hl : lookupWebsite h.websites (parseDomainFromHost req.host) with
    | none =>
      simp only [hl] at he
      exact absurd he hnew
    | some id =>
      simp only [hl] at he
      split_ifs at he
      · simp only [List.mem_append, List.mem_singleton] at he
        rcases he with he | he
        · exact absurd he hnew
        · rw [he]
      · exact absurd he hnew

/-- C10 witness: the amended theorem at an unmapped hostname, and at a
mapped hostname whose freshly enqueued event carries the mapped id. -/
theorem submit_site_id_from_map_witness :
    (submitToFeed
        { isDebug := false, isDisabled := false, queueCap := 10, batchSize := 20,
          batchMaxWait := 1000000000, host := "h", apiKey := "k",
          websites := [("a.com", "1")], trackErrors := false, ignoreCidrs := [],
          headerIp := "X-Real-Ip" }
        ⟨"b.com", "/p", "", "9.9.9.9:1", "ua", "r", "en,fr"⟩ []).queue = [] ∧
    lookupWebsite [("a.com", "1")] (parseDomainFromHost "a.com:443") =
      some (RybbitEvent.siteID
        ⟨"k", "1", "pageview", "/p", "a.com", "9.9.9.9", "ua", "en", "", "r", ""⟩) :=
  ⟨((submit_site_id_from_map
      { isDebug := false, isDisabled := false, queueCap := 10, batchSize := 20,
        batchMaxWait := 1000000000, host := "h", apiKey := "k",
        websites := [("a.com", "1")], trackErrors := false, ignoreCidrs := [],
        headerIp := "X-Real-Ip" }
      ⟨"b.com", "/p", "", "9.9.9.9:1", "ua", "r", "en,fr"⟩ []).1 (by decide)).1,
   (submit_site_id_from_map
      { isDebug := false, isDisabled := false, queueCap := 10, batchSize := 20,
        batchMaxWait := 1000000000, host := "h", apiKey := "k",
        websites := [("a.com", "1")], trackErrors := false, ignoreCidrs := [],
        headerIp := "X-Real-Ip" }
      ⟨"a.com:443", "/p", "", "9.9.9.9:1", "ua", "r", "en,fr"⟩ []).2
      ⟨"k", "1", "pageview", "/p", "a.com", "9.9.9.9", "ua", "en", "", "r", ""⟩
      (by decide) (by decide)⟩

/-- C5 counterexample: two WriteHeader calls with accepted status 200 on
the same wrapped request enqueue two events: there is no first-write
guard, so more than one event per request is synthesized and enqueued
when WriteHeader is invoked more than once. -/
theorem double_writeHeader_enqueues_twice :
    (writeHeaderSeq
        { isDebug := false, isDisabled := false, queueCap := 10, batchSize := 20,
          batchMaxWait := 1000000000, host := "h", apiKey := "k",
          websites := [("example.com", "5")], trackErrors := false,
          ignoreCidrs := [], headerIp := "X-Real-Ip" }
        ⟨"example.com", "/p", "", "1.2.3.4:80", "ua", "r", "en"⟩
        [] [200, 200]).queue.length = 2 ∧
    ¬ ((writeHeaderSeq
        { isDebug := false, isDisabled := false, queueCap := 10, batchSize := 20,
          batchMaxWait := 1000000000, host := "h", apiKey := "k",
          websites := [("example.com", "5")], trackErrors := false,
          ignoreCidrs := [], headerIp := "X-Real-Ip" }
        ⟨"example.com", "/p", "", "1.2.3.4:80", "ua", "r", "en"⟩
        [] [200, 200]).queue.length ≤ 1) := by
  decide

/-- C5 amended: WriteHeader evaluates the status filter and submits to
the feed on every invocation, before delegating to the wrapped writer;
with the request hostname mapped and capacity remaining, each accepted
call enqueues one event, so a sequence of accepted header writes
enqueues one event per call rather than at most one per request. -/
theorem writeHeader_enqueues_per_call (h : UmamiFeeder) (req : TrackRequest)
    (codes : List Int) (queue : List RybbitEvent) (id : String)
    (hsite : lookupWebsite h.websites (parseDomainFromHost req.host) = some id)
    (hcap : queue.length + codes.length ≤ h.queueCap)
    (hacc : ∀ c ∈ codes, shouldTrackStatus h.trackErrors c = true) :
    (writeHeaderSeq h req queue codes).queue.length =
      queue.length + codes.length := by
  induction codes generalizing queue with
  | nil => simp [writeHeaderSeq]
  | cons c cs ih =>
    have hc := hacc c (by simp)
    have hroom : queue.length < h.queueCap := by
      simp at hcap
      omega
    have hstep : writeHeader h req queue c =
        ⟨queue ++ [⟨h.apiKey, id, "pageview", req.path,
          parseDomainFromHost req.host, extractRemoteIP req.remoteAddr,
          req.userAgent, parseAcceptLanguage req.acceptLanguage, "",
          req.referer, ""⟩], []⟩ := by
      unfold writeHeader submitToFeed
      simp only [hc, if_true, hsite, hroom, if_pos]
    simp only [writeHeaderSeq, hstep]
    rw [ih _ (by simp at hcap ⊢; omega) (fun d hd => hacc d (by simp [hd]))]
    simp
    omega

/-- C5 amended witness: the per-call theorem at two accepted calls with
statuses 200 and 304 starting from an empty queue. -/
theorem writeHeader_enqueues_per_call_witness :
    (writeHeaderSeq
        { isDebug := false, isDisabled := false, queueCap := 10, batchSize := 20,
          batchMaxWait := 1000000000, host := "h", apiKey := "k",
          websites := [("example.com", "5")], trackErrors := false,
          ignoreCidrs := [], headerIp := "X-Real-Ip" }
        ⟨"example.com", "/p", "", "1.2.3.4:80", "ua", "r", "en"⟩
        [] [200, 304]).queue.length = 2 := by
  have hw := writeHeader_enqueues_per_call
    { isDebug := false, isDisabled := false, queueCap := 10, batchSize := 20,
      batchMaxWait := 1000000000, host := "h", apiKey := "k",
      websites := [("example.com", "5")], trackErrors := false,
      ignoreCidrs := [], headerIp := "X-Real-Ip" }
    ⟨"example.com", "/p", "", "1.2.3.4:80", "ua", "r", "en"⟩
    [200, 304] [] "5" (by decide) (by decide) (by decide)
  simpa using hw

end TraefikRybbitFeeder
